import Mathlib

/-!
# Verification of the Speechify TTS adapter (`speechify_tts.py`)

Shallow embedding of `src/open_llm_vtuber/tts/speechify_tts.py`:
the class `TTSEngine` with its constructor `__init__`, the method
`generate_audio`, and the method `filter_voice_models`.

Effectful library operations (vendor client construction, the vendor
speech call, base64 decoding, directory creation, file write, file
removal) are modelled by explicit oracles carried in an environment
record: each oracle says whether the corresponding call succeeds and
with which value, so that the adapter's own control flow — which is the
subject of every claim — is translated statement by statement from the
Python source.  The mutable outside world (directories, files, the log,
and the list of vendor calls issued) is threaded explicitly as a
`World` value.
-/

set_option autoImplicit false

deriving instance DecidableEq for Except

namespace Speechify

/-- Exceptions are identified by their message. -/
abbrev Exn := String

/-- Python `str.lower()`, character by character (ASCII case folding,
which covers every string the adapter compares). -/
def pyLower (s : String) : String := ⟨s.data.map Char.toLower⟩

/-- The whitespace characters `str.strip()` removes. -/
def isSpaceChar (c : Char) : Bool :=
  c == ' ' || c == '\t' || c == '\n' || c == '\r' || c == '\x0b' || c == '\x0c'

/-- Python `str.strip()`: drop leading and trailing whitespace. -/
def pyStrip (s : String) : String :=
  ⟨((s.data.dropWhile isSpaceChar).reverse.dropWhile isSpaceChar).reverse⟩

/-- The vendor client object `Speechify(token=api_key)`; the adapter treats
it as an opaque capability, so only the token it was built from matters. -/
structure Client where
  token : String
  deriving DecidableEq, Repr

/-- Python values as far as `generate_audio` inspects them: its `text`
argument is checked with `isinstance(text, str)`, and the spec exercises
the non-string cases `123` and `None`. -/
inductive PyValue where
  | str (s : String)
  | int (n : Int)
  | pyNone
  deriving DecidableEq, Repr

/-- `GetSpeechOptionsRequest(loudness_normalization=…, text_normalization=…)`. -/
structure GetSpeechOptionsRequest where
  loudness_normalization : Bool
  text_normalization : Bool
  deriving DecidableEq, Repr

/-- The keyword arguments of `self.client.tts.audio.speech(...)`. -/
structure SpeechRequest where
  audio_format : String
  input : String
  language : Option String
  model : String
  options : GetSpeechOptionsRequest
  voice_id : String
  deriving DecidableEq, Repr

/-- The vendor response: a base64 payload `audio_data`, and the optional
attribute `billable_characters_count` (the source probes it with
`hasattr`, so it is modelled as an `Option`). -/
structure SpeechResponse where
  audio_data : String
  billable_characters_count : Option Nat
  deriving DecidableEq, Repr

/-- One structured entry of the adapter's log, one constructor per
`logger.…(...)` call site in the source. -/
inductive LogEvent where
  | warnBadAudioFormat (fmt : String)
  | warnBadModel (m : String)
  | infoClientInit
  | criticalClientInitFailed (e : Exn)
  | errorClientNotInitialized
  | warnNonStringText
  | warnReceivedValue (v : PyValue)
  | warnNoText
  | debugGenerating (text voice model : String)
  | infoGeneratedFile (path : String)
  | debugBillable (n : Nat)
  | criticalTTSError (e : Exn)
  | errorRemoveIncompleteFailed (path : String) (e : Exn)
  deriving DecidableEq, Repr

/-- The outside world the adapter mutates: existing directories, the file
system (an association list mapping a path to the bytes stored there),
the log, and the vendor speech calls issued so far. -/
structure World where
  dirs : List String
  fs : List (String × List Nat)
  log : List LogEvent
  calls : List SpeechRequest
  deriving DecidableEq, Repr

/-- Contents of the file at `path`, if one exists. -/
def fsGet (fs : List (String × List Nat)) (path : String) : Option (List Nat) :=
  match fs with
  | [] => none
  | (p, b) :: rest => if p = path then some b else fsGet rest path

/-- Store `bytes` at `path`, replacing any previous file there. -/
def fsSet (fs : List (String × List Nat)) (path : String) (bytes : List Nat) :
    List (String × List Nat) :=
  match fs with
  | [] => [(path, bytes)]
  | (p, b) :: rest => if p = path then (path, bytes) :: rest else (p, b) :: fsSet rest path bytes

/-- Delete the file at `path` if present. -/
def fsRemove (fs : List (String × List Nat)) (path : String) : List (String × List Nat) :=
  match fs with
  | [] => []
  | (p, b) :: rest => if p = path then fsRemove rest path else (p, b) :: fsRemove rest path

/-- `Path(path).exists()` over the modelled file system. -/
def fsExists (fs : List (String × List Nat)) (path : String) : Bool :=
  match fs with
  | [] => false
  | (p, _) :: rest => p = path || fsExists rest path

/-- The constructor's arguments, with the source's defaults noted:
`voice_id="scott"`, `model="simba-english"`, `language=None`,
`audio_format="mp3"`, both normalization flags `True`. -/
structure InitArgs where
  api_key : String
  voice_id : String
  model : String
  language : Option String
  audio_format : String
  loudness_normalization : Bool
  text_normalization : Bool
  deriving DecidableEq, Repr

/-- Oracles for the two effectful operations of `__init__`:
`os.makedirs(...)` (attempted only when the cache directory is absent)
and `Speechify(token=api_key, **kwargs)`.  `none` means the call
succeeds; `some e` means it raises `e`. -/
structure InitEnv where
  mkdirFailure : Option Exn
  clientFailure : Option Exn
  deriving DecidableEq, Repr

/-- The adapter's state after `__init__`: exactly the `self.…` attributes
the constructor assigns. -/
structure TTSEngine where
  api_key : String
  voice_id : String
  model : String
  language : Option String
  audio_format : String
  loudness_normalization : Bool
  text_normalization : Bool
  file_extension : String
  new_audio_dir : String
  temp_audio_file : String
  client : Option Client
  deriving DecidableEq, Repr

/-- The valid audio formats of the source's validation list. -/
def allowedAudioFormats : List String := ["aac", "mp3", "ogg", "wav"]

/-- The valid models of the source's validation list. -/
def allowedModels : List String := ["simba-english", "simba-multilingual"]

/-- `TTSEngine.__init__`, translated statement by statement.  The result
pairs the constructor's outcome — `Except.ok` the constructed engine, or
`Except.error` when an uncaught exception propagates to the caller —
with the final world (logging is a side effect that persists either
way).  Note that `os.makedirs` sits outside the `try`, so its failure
propagates, while a `Speechify(...)` failure is caught and leaves
`self.client = None`. -/
def TTSEngine.init (args : InitArgs) (env : InitEnv) (w : World) :
    Except Exn TTSEngine × World :=
  -- self.audio_format = audio_format.lower(), then validated
  let audio_format := pyLower args.audio_format
  let (audio_format, log) :=
    if allowedAudioFormats.contains audio_format then (audio_format, w.log)
    else ("mp3", w.log ++ [LogEvent.warnBadAudioFormat audio_format])
  -- self.model validated (no lowercasing in the source)
  let (model, log) :=
    if allowedModels.contains args.model then (args.model, log)
    else ("simba-english", log ++ [LogEvent.warnBadModel args.model])
  let file_extension := audio_format
  let new_audio_dir := "cache"
  let temp_audio_file := "temp_speechify"
  -- if not os.path.exists(self.new_audio_dir): os.makedirs(self.new_audio_dir)
  let mkdirStep : Except Exn (List String) :=
    if w.dirs.contains new_audio_dir then Except.ok w.dirs
    else
      match env.mkdirFailure with
      | some e => Except.error e
      | none => Except.ok (new_audio_dir :: w.dirs)
  match mkdirStep with
  | Except.error e => (Except.error e, { w with log := log })
  | Except.ok dirs =>
    -- try: self.client = Speechify(token=api_key); except: self.client = None
    match env.clientFailure with
    | none =>
      (Except.ok
        { api_key := args.api_key
          voice_id := args.voice_id
          model := model
          language := args.language
          audio_format := audio_format
          loudness_normalization := args.loudness_normalization
          text_normalization := args.text_normalization
          file_extension := file_extension
          new_audio_dir := new_audio_dir
          temp_audio_file := temp_audio_file
          client := some { token := args.api_key } },
       { w with dirs := dirs, log := log ++ [LogEvent.infoClientInit] })
    | some e =>
      (Except.ok
        { api_key := args.api_key
          voice_id := args.voice_id
          model := model
          language := args.language
          audio_format := audio_format
          loudness_normalization := args.loudness_normalization
          text_normalization := args.text_normalization
          file_extension := file_extension
          new_audio_dir := new_audio_dir
          temp_audio_file := temp_audio_file
          client := none },
       { w with dirs := dirs, log := log ++ [LogEvent.criticalClientInitFailed e] })

/-- Modelled from the spec: `generate_cache_file_name` is inherited from
the host application's `TTSInterface`, whose source is not part of this
repository.  Per the spec, an explicit stem yields `<stem>.<format>` and
an absent stem yields `temp.<format>`, inside the fixed cache
directory. -/
def TTSEngine.generate_cache_file_name (self : TTSEngine)
    (file_name_no_ext : Option String) (file_extension : String) : String :=
  self.new_audio_dir ++ "/" ++
    (match file_name_no_ext with
     | some s => s
     | none => "temp") ++ "." ++ file_extension

/-- The keyword arguments the source passes to
`self.client.tts.audio.speech(...)`, built from the adapter's
configuration and the (already stripped) input text. -/
def speechRequest (self : TTSEngine) (text : String) : SpeechRequest :=
  { audio_format := self.audio_format
    input := text
    language := self.language
    model := self.model
    options :=
      { loudness_normalization := self.loudness_normalization
        text_normalization := self.text_normalization }
    voice_id := self.voice_id }

/-- Outcome of `with open(speech_file_path, "wb") as f: f.write(audio_bytes)`:
the write succeeds in full, the open itself raises, or the write raises
after the file was truncated and `leftover` bytes were stored. -/
inductive WriteOutcome where
  | ok
  | openFailed (e : Exn)
  | writeFailed (leftover : List Nat) (e : Exn)
  deriving DecidableEq, Repr

/-- Oracles for the effectful operations of `generate_audio`: the vendor
speech call, `base64.b64decode`, the file write, and `os.remove` during
error cleanup (`none` means removal succeeds). -/
structure CallEnv where
  speech : SpeechRequest → Except Exn SpeechResponse
  b64decode : String → Except Exn (List Nat)
  writeOutcome : WriteOutcome
  removeFailure : Option Exn

/-- The `except Exception` handler of `generate_audio`: log critical,
then best-effort delete a file at the target path if one exists (an
`OSError` from the removal itself is logged, never raised). -/
def cleanupAfterError (env : CallEnv) (w : World) (path : String) (e : Exn) : World :=
  let w := { w with log := w.log ++ [LogEvent.criticalTTSError e] }
  if fsExists w.fs path then
    match env.removeFailure with
    | none => { w with fs := fsRemove w.fs path }
    | some r => { w with log := w.log ++ [LogEvent.errorRemoveIncompleteFailed path r] }
  else w

/-- `TTSEngine.generate_audio`, translated statement by statement.  The
method never raises, so the result is the engine (returned unchanged:
the source assigns no `self.…` attribute), the Python return value
(`Some path` or `None`), and the final world. -/
def TTSEngine.generate_audio (self : TTSEngine) (env : CallEnv) (w : World)
    (text : PyValue) (file_name_no_ext : Option String) :
    TTSEngine × Option String × World :=
  -- if not self.client: return None
  match self.client with
  | none => (self, none, { w with log := w.log ++ [LogEvent.errorClientNotInitialized] })
  | some _ =>
    match text with
    | PyValue.str s =>
      -- text = text.strip(); if not text: return None
      let text := pyStrip s
      if text = "" then
        (self, none, { w with log := w.log ++ [LogEvent.warnNoText] })
      else
        let speech_file_path := self.generate_cache_file_name file_name_no_ext self.file_extension
        let w := { w with log := w.log ++
          [LogEvent.debugGenerating text self.voice_id self.model] }
        let req := speechRequest self text
        let w := { w with calls := w.calls ++ [req] }
        match env.speech req with
        | Except.error e => (self, none, cleanupAfterError env w speech_file_path e)
        | Except.ok audio_response =>
          match env.b64decode audio_response.audio_data with
          | Except.error e => (self, none, cleanupAfterError env w speech_file_path e)
          | Except.ok audio_bytes =>
            match env.writeOutcome with
            | WriteOutcome.openFailed e =>
              (self, none, cleanupAfterError env w speech_file_path e)
            | WriteOutcome.writeFailed leftover e =>
              let w := { w with fs := fsSet w.fs speech_file_path leftover }
              (self, none, cleanupAfterError env w speech_file_path e)
            | WriteOutcome.ok =>
              let w := { w with fs := fsSet w.fs speech_file_path audio_bytes }
              let w := { w with log := w.log ++ [LogEvent.infoGeneratedFile speech_file_path] }
              let w :=
                match audio_response.billable_characters_count with
                | some n => { w with log := w.log ++ [LogEvent.debugBillable n] }
                | none => w
              (self, some speech_file_path, w)
    | other =>
      (self, none, { w with log := w.log ++
        [LogEvent.warnNonStringText, LogEvent.warnReceivedValue other] })

/-- Voice metadata as `filter_voice_models` reads it: `lang.locale`. -/
structure VoiceLanguage where
  locale : String
  deriving DecidableEq, Repr

/-- Voice metadata as `filter_voice_models` reads it: `model.name`,
`model.languages`. -/
structure VoiceModel where
  name : String
  languages : List VoiceLanguage
  deriving DecidableEq, Repr

/-- Voice metadata as `filter_voice_models` reads it: `voice.gender`,
`voice.tags`, `voice.models`. -/
structure Voice where
  gender : String
  tags : List String
  models : List VoiceModel
  deriving DecidableEq, Repr

/-- One iteration of the `for voice in voices` loop of
`filter_voice_models`: each `continue` keeps `results` as is, and a
voice that passes every present filter appends its model names.  The
Python guards `if gender`, `if locale`, `if tags` use truthiness, so
`None`, the empty string, and the empty list all skip the corresponding
filter. -/
def filterStep (gender : Option String) (locale : Option String)
    (tags : Option (List String)) (results : List String) (voice : Voice) : List String :=
  -- gender filter
  if (gender.getD "") != "" && pyLower voice.gender != pyLower (gender.getD "") then
    results
  -- locale filter (check across models and languages)
  else if (locale.getD "") != "" &&
      !(voice.models.any fun model => model.languages.any fun lang =>
          lang.locale == locale.getD "") then
    results
  -- tags filter
  else if (tags.getD []) != [] &&
      !((tags.getD []).all fun tag => voice.tags.contains tag) then
    results
  -- matching voice: collect model ids
  else
    results ++ voice.models.map VoiceModel.name

/-- `TTSEngine.filter_voice_models`: `results = []`, the loop over the
voices, and `return results`.  The engine is returned alongside the
result (unchanged: the method reads no `self.…` attribute and assigns
none). -/
def TTSEngine.filter_voice_models (self : TTSEngine) (voices : List Voice)
    (gender : Option String) (locale : Option String) (tags : Option (List String)) :
    TTSEngine × List String :=
  (self, voices.foldl (filterStep gender locale tags) [])

/-- The filtering predicate exactly as the specification words it, where
"no gender/locale/tags filter" means the optional argument is absent
(`none`): a present filter is always applied, whatever its value.  This
is the spec-side definition, to be compared with the source-side
`TTSEngine.filter_voice_models`. -/
def voiceMatchesSpec (gender locale : Option String) (tags : Option (List String))
    (v : Voice) : Bool :=
  (match gender with
   | none => true
   | some g => pyLower v.gender == pyLower g) &&
  (match locale with
   | none => true
   | some l => v.models.any fun m => m.languages.any fun lang => lang.locale == l) &&
  (match tags with
   | none => true
   | some ts => ts.all fun t => v.tags.contains t)

/-- The filtering predicate with Python truthiness made explicit: an
absent filter, an empty-string gender or locale, and an empty tags list
all count as "no filter". -/
def voiceMatchesTruthy (gender locale : Option String) (tags : Option (List String))
    (v : Voice) : Bool :=
  (gender.getD "" == "" || pyLower v.gender == pyLower (gender.getD "")) &&
  (locale.getD "" == "" ||
    v.models.any fun m => m.languages.any fun lang => lang.locale == locale.getD "") &&
  (tags.getD [] == [] || (tags.getD []).all fun t => v.tags.contains t)

/-- Concatenation, in input order and without deduplication, of the
model names of the voices satisfying `p`. -/
def matchingModelNames (p : Voice → Bool) (voices : List Voice) : List String :=
  (voices.filter p).foldr (fun v acc => v.models.map VoiceModel.name ++ acc) []

/-- The male/`en-US`/`timbre:deep` voice of the spec's two-voice example. -/
def voiceM1 : Voice :=
  { gender := "male", tags := ["timbre:deep"],
    models := [{ name := "m1", languages := [{ locale := "en-US" }] }] }

/-- The female/`fr-FR`/`timbre:bright` voice of the spec's two-voice example. -/
def voiceM2 : Voice :=
  { gender := "female", tags := ["timbre:bright"],
    models := [{ name := "m2", languages := [{ locale := "fr-FR" }] }] }

/-- A concrete adapter state, as built by a fully successful `__init__`
on default arguments; used to evaluate methods at concrete inputs. -/
def engine0 : TTSEngine :=
  { api_key := "k", voice_id := "scott", model := "simba-english",
    language := none, audio_format := "mp3",
    loudness_normalization := true, text_normalization := true,
    file_extension := "mp3", new_audio_dir := "cache",
    temp_audio_file := "temp_speechify", client := some { token := "k" } }

/-- `True` exactly when the try-block of `generate_audio` raises for the
given environment and (stripped) text: the vendor speech call fails, the
base64 decode of its payload fails, or the file write fails. -/
def vendorCallFails (self : TTSEngine) (env : CallEnv) (text : String) : Bool :=
  match env.speech (speechRequest self text) with
  | Except.error _ => true
  | Except.ok resp =>
    match env.b64decode resp.audio_data with
    | Except.error _ => true
    | Except.ok _ =>
      match env.writeOutcome with
      | WriteOutcome.ok => false
      | _ => true

/-- Whether an `Except` outcome is a normal return. -/
def exceptOk {ε α : Type} : Except ε α → Bool
  | Except.ok _ => true
  | Except.error _ => false

/-- A world in which the cache directory already exists and nothing else
does. -/
def worldCache : World := { dirs := ["cache"], fs := [], log := [], calls := [] }

/-- An environment in which both constructor effects succeed. -/
def initEnvOk : InitEnv := { mkdirFailure := none, clientFailure := none }

/-- Constructor arguments matching the source's defaults. -/
def argsDefault : InitArgs :=
  { api_key := "k", voice_id := "scott", model := "simba-english",
    language := none, audio_format := "mp3",
    loudness_normalization := true, text_normalization := true }

/-- Default arguments except for the upper-case audio format `"WAV"`. -/
def argsWAV : InitArgs := { argsDefault with audio_format := "WAV" }

/-- Default arguments except for an invalid audio format and an invalid
model. -/
def argsBad : InitArgs := { argsDefault with audio_format := "flac", model := "bogus" }

/-- An environment in which `os.makedirs` raises. -/
def envMkdirFail : InitEnv := { mkdirFailure := some "EACCES", clientFailure := none }

/-- An environment in which `Speechify(...)` raises. -/
def envClientFail : InitEnv := { mkdirFailure := none, clientFailure := some "boom" }

/-- A call environment in which every effect succeeds: the vendor returns
payload `"QUJD"` with 4 billable characters, decoding yields three bytes,
and the write goes through. -/
def callEnvOk : CallEnv :=
  { speech := fun _ => Except.ok { audio_data := "QUJD", billable_characters_count := some 4 }
    b64decode := fun _ => Except.ok [65, 66, 67]
    writeOutcome := WriteOutcome.ok
    removeFailure := none }

/-- A call environment in which the vendor speech call itself raises. -/
def callEnvNetFail : CallEnv :=
  { callEnvOk with speech := fun _ => Except.error "network down" }

/-- The adapter produced by a fully successful `__init__` on default
arguments, except that the vendor client failed to construct. -/
def engineNoClient : TTSEngine := { engine0 with client := none }

/-- The adapter produced by `__init__` on default arguments except for
audio format `"WAV"`: the format is lowercased and kept, not replaced. -/
def engineWAV : TTSEngine := { engine0 with audio_format := "wav", file_extension := "wav" }

/-- A world in which nothing exists yet, the cache directory included. -/
def worldEmpty : World := { dirs := [], fs := [], log := [], calls := [] }

/-- Whether `t` is a suffix of `s`, over the character lists. -/
def strEndsWith (s t : String) : Bool := t.data.isSuffixOf s.data


/-- C3: a `generate_audio` call whose text is not a string, or is a
string that is empty or whitespace-only after stripping, returns `None`,
issues no vendor speech call, and writes no file. -/
theorem C3_invalid_text_rejected_locally (self : TTSEngine) (env : CallEnv) (w : World)
    (text : PyValue) (stem : Option String)
    (h : ∀ s, text = PyValue.str s → pyStrip s = "") :
    (self.generate_audio env w text stem).2.1 = none ∧
    (self.generate_audio env w text stem).2.2.calls = w.calls ∧
    (self.generate_audio env w text stem).2.2.fs = w.fs := by
  cases hc : self.client with
  | none => simp [TTSEngine.generate_audio, hc]
  | some c =>
    cases text with
    | str s =>
      have hs := h s rfl
      simp [TTSEngine.generate_audio, hc, hs]
    | int n => simp [TTSEngine.generate_audio, hc]
    | pyNone => simp [TTSEngine.generate_audio, hc]

/-- Witness for C3: the non-string text `123` and the whitespace-only
text `"   "` are both rejected with no vendor call and no file write. -/
theorem C3_witness :
    ((engine0.generate_audio callEnvOk worldCache (PyValue.int 123) none).2.1 = none ∧
      (engine0.generate_audio callEnvOk worldCache (PyValue.int 123) none).2.2.calls =
        worldCache.calls ∧
      (engine0.generate_audio callEnvOk worldCache (PyValue.int 123) none).2.2.fs =
        worldCache.fs) ∧
    ((engine0.generate_audio callEnvOk worldCache (PyValue.str "   ") none).2.1 = none ∧
      (engine0.generate_audio callEnvOk worldCache (PyValue.str "   ") none).2.2.calls =
        worldCache.calls ∧
      (engine0.generate_audio callEnvOk worldCache (PyValue.str "   ") none).2.2.fs =
        worldCache.fs) :=
  ⟨C3_invalid_text_rejected_locally engine0 callEnvOk worldCache (PyValue.int 123) none
      (fun _ hs => by cases hs),
   C3_invalid_text_rejected_locally engine0 callEnvOk worldCache (PyValue.str "   ") none
      (fun _ hs => by cases hs; decide)⟩

/-- C4: with no vendor client (`self.client = None`), `generate_audio`
returns `None` immediately for every text and stem, issuing no vendor
call and writing no file. -/
theorem C4_disabled_adapter_fails_fast (self : TTSEngine) (env : CallEnv) (w : World)
    (text : PyValue) (stem : Option String) (hc : self.client = none) :
    (self.generate_audio env w text stem).2.1 = none ∧
    (self.generate_audio env w text stem).2.2.calls = w.calls ∧
    (self.generate_audio env w text stem).2.2.fs = w.fs := by
  simp [TTSEngine.generate_audio, hc]

/-- Witness for C4: the disabled adapter rejects a perfectly good text. -/
theorem C4_witness :
    (engineNoClient.generate_audio callEnvOk worldCache (PyValue.str "hello") none).2.1 = none ∧
    (engineNoClient.generate_audio callEnvOk worldCache (PyValue.str "hello") none).2.2.calls =
      worldCache.calls ∧
    (engineNoClient.generate_audio callEnvOk worldCache (PyValue.str "hello") none).2.2.fs =
      worldCache.fs :=
  C4_disabled_adapter_fails_fast engineNoClient callEnvOk worldCache
    (PyValue.str "hello") none rfl

/-- C8: neither `generate_audio` nor `filter_voice_models` changes any of
the adapter's attributes — the whole engine record (`api_key`,
`voice_id`, `model`, `language`, `audio_format`, the two normalization
flags, `file_extension`, `new_audio_dir`, `temp_audio_file`, and the
`client` reference) is returned identically for every argument and every
outcome. -/
theorem C8_engine_state_unchanged (self : TTSEngine) :
    (∀ (env : CallEnv) (w : World) (text : PyValue) (stem : Option String),
      (self.generate_audio env w text stem).1 = self) ∧
    (∀ (voices : List Voice) (gender locale : Option String) (tags : Option (List String)),
      (self.filter_voice_models voices gender locale tags).1 = self) := by
  constructor
  · intro env w text stem
    cases hc : self.client with
    | none => simp [TTSEngine.generate_audio, hc]
    | some c =>
      cases text with
      | str s =>
        by_cases hs : pyStrip s = ""
        · simp [TTSEngine.generate_audio, hc, hs]
        · rcases hsp : env.speech (speechRequest self (pyStrip s)) with e | resp
          · simp [TTSEngine.generate_audio, hc, hs, hsp]
          · rcases hdec : env.b64decode resp.audio_data with e | bytes
            · simp [TTSEngine.generate_audio, hc, hs, hsp, hdec]
            · rcases hwr : env.writeOutcome with _ | e | ⟨leftover, e⟩ <;>
                simp [TTSEngine.generate_audio, hc, hs, hsp, hdec, hwr]
      | int n => simp [TTSEngine.generate_audio, hc]
      | pyNone => simp [TTSEngine.generate_audio, hc]
  · intro voices gender locale tags
    simp [TTSEngine.filter_voice_models]

theorem matchingModelNames_cons (p : Voice → Bool) (v : Voice) (vs : List Voice) :
    matchingModelNames p (v :: vs) =
      if p v then v.models.map VoiceModel.name ++ matchingModelNames p vs
      else matchingModelNames p vs := by
  simp only [matchingModelNames, List.filter_cons]
  rcases hp : p v <;> simp [hp]

theorem guardChain_eq (a m1 b m2 c m3 : Bool) (r names : List String) :
    (if !a && !m1 then r
     else if !b && !m2 then r
     else if !c && !m3 then r
     else r ++ names) =
      if (a || m1) && (b || m2) && (c || m3) then r ++ names else r := by
  cases a <;> cases m1 <;> cases b <;> cases m2 <;> cases c <;> cases m3 <;> simp

theorem filterStep_matches (gender locale : Option String) (tags : Option (List String))
    (r : List String) (voice : Voice) :
    filterStep gender locale tags r voice =
      if voiceMatchesTruthy gender locale tags voice then
        r ++ voice.models.map VoiceModel.name
      else r := by
  simp only [filterStep, voiceMatchesTruthy, bne]
  exact guardChain_eq (gender.getD "" == "")
    (pyLower voice.gender == pyLower (gender.getD ""))
    (locale.getD "" == "")
    (voice.models.any fun model => model.languages.any fun lang =>
      lang.locale == locale.getD "")
    (tags.getD [] == [])
    ((tags.getD []).all fun tag => voice.tags.contains tag)
    r (voice.models.map VoiceModel.name)

theorem foldl_filterStep (gender locale : Option String) (tags : Option (List String)) :
    ∀ (voices : List Voice) (acc : List String),
      voices.foldl (filterStep gender locale tags) acc =
        acc ++ matchingModelNames (voiceMatchesTruthy gender locale tags) voices := by
  intro voices
  induction voices with
  | nil => intro acc; simp [matchingModelNames]
  | cons v vs ih =>
    intro acc
    rw [List.foldl_cons, filterStep_matches, matchingModelNames_cons]
    rcases hp : voiceMatchesTruthy gender locale tags v <;> simp [hp, ih]

/-- Counterexample to C2: the claim quantifies over every optional
filter, but the source's guard `if gender` treats a present empty-string
gender by truthiness as no filter at all, while the claim's predicate
("the voice's gender matches case-insensitively") would exclude every
voice whose gender is nonempty.  On the single male voice `voiceM1` with
the filter `gender=""`, the code returns `["m1"]` whereas the claim
predicts `[]`. -/
theorem C2_counterexample :
    (engine0.filter_voice_models [voiceM1] (some "") none none).2 = ["m1"] ∧
    matchingModelNames (voiceMatchesSpec (some "") none none) [voiceM1] = [] ∧
    (engine0.filter_voice_models [voiceM1] (some "") none none).2 ≠
      matchingModelNames (voiceMatchesSpec (some "") none none) [voiceM1] :=
  ⟨by decide, by decide, by decide⟩

/-- C2 (amended): `filter_voice_models` returns exactly the
concatenation, in input order and without deduplication, of the model
names of the voices that satisfy: (no gender filter — absent or empty —
or the voice's gender matches case-insensitively) AND (no locale filter
— absent or empty — or one of the voice's models lists a language with
that locale) AND (no tags filter — absent or empty list — or every
requested tag is in the voice's tag list); on the claim's two-voice
example, `gender="male"`, `locale="en-US"`, `tags=["timbre:deep"]`, and
their combination each yield `["m1"]`, and no filters yields
`["m1","m2"]`. -/
theorem C2_filter_voice_models_amended :
    (∀ (self : TTSEngine) (voices : List Voice) (gender locale : Option String)
        (tags : Option (List String)),
      (self.filter_voice_models voices gender locale tags).2 =
        matchingModelNames (voiceMatchesTruthy gender locale tags) voices) ∧
    (engine0.filter_voice_models [voiceM1, voiceM2] (some "male") none none).2 = ["m1"] ∧
    (engine0.filter_voice_models [voiceM1, voiceM2] none (some "en-US") none).2 = ["m1"] ∧
    (engine0.filter_voice_models [voiceM1, voiceM2] none none
      (some ["timbre:deep"])).2 = ["m1"] ∧
    (engine0.filter_voice_models [voiceM1, voiceM2] (some "male") (some "en-US")
      (some ["timbre:deep"])).2 = ["m1"] ∧
    (engine0.filter_voice_models [voiceM1, voiceM2] none none none).2 = ["m1", "m2"] := by
  refine ⟨fun self voices gender locale tags => ?_, by decide, by decide, by decide,
    by decide, by decide⟩
  simp only [TTSEngine.filter_voice_models]
  rw [foldl_filterStep]
  simp

/-- Counterexample to C1: the supplied audio format `"WAV"` is not one of
`{aac, mp3, ogg, wav}`, yet the adapter's effective format is `"wav"` —
not the claimed `"mp3"` — and no warning is logged, because the source
lowercases the format before validating it. -/
theorem C1_counterexample :
    "WAV" ∉ allowedAudioFormats ∧
    (TTSEngine.init argsWAV initEnvOk worldCache).1 = Except.ok engineWAV ∧
    engineWAV.audio_format = "wav" ∧
    (TTSEngine.init argsWAV initEnvOk worldCache).2.log = [LogEvent.infoClientInit] :=
  ⟨by decide, by decide, by decide, by decide⟩

/-- C1 (amended): if the supplied `audio_format`, lowercased, is not one
of `{aac, mp3, ogg, wav}` then the adapter's effective audio format is
`mp3`, and if the supplied `model` is not one of
`{simba-english, simba-multilingual}` then the effective model is
`simba-english`; in each case a warning is logged, and the configuration
is never rejected — construction fails only when creating the missing
cache directory fails, independently of the enum values. -/
theorem C1_init_coercion (args : InitArgs) (env : InitEnv) (w : World) :
    (pyLower args.audio_format ∉ allowedAudioFormats →
      (∀ eng, (TTSEngine.init args env w).1 = Except.ok eng →
        eng.audio_format = "mp3" ∧ eng.file_extension = "mp3") ∧
      LogEvent.warnBadAudioFormat (pyLower args.audio_format) ∈
        (TTSEngine.init args env w).2.log) ∧
    (args.model ∉ allowedModels →
      (∀ eng, (TTSEngine.init args env w).1 = Except.ok eng →
        eng.model = "simba-english") ∧
      LogEvent.warnBadModel args.model ∈ (TTSEngine.init args env w).2.log) ∧
    (exceptOk (TTSEngine.init args env w).1 = false ↔
      "cache" ∉ w.dirs ∧ env.mkdirFailure.isSome = true) := by
  by_cases hf : pyLower args.audio_format ∈ allowedAudioFormats <;>
    by_cases hm : args.model ∈ allowedModels <;>
    by_cases hd : "cache" ∈ w.dirs <;>
    rcases hmk : env.mkdirFailure with _ | me <;>
    rcases hcl : env.clientFailure with _ | ce <;>
    simp [TTSEngine.init, exceptOk, hf, hm, hd, hmk, hcl]

/-- Witness for C1 (amended): the invalid format `"flac"` and the
invalid model `"bogus"` are both coerced to their defaults with
warnings. -/
theorem C1_witness :
    engine0.audio_format = "mp3" ∧ engine0.file_extension = "mp3" ∧
    engine0.model = "simba-english" ∧
    LogEvent.warnBadAudioFormat "flac" ∈ (TTSEngine.init argsBad initEnvOk worldCache).2.log ∧
    LogEvent.warnBadModel "bogus" ∈ (TTSEngine.init argsBad initEnvOk worldCache).2.log := by
  have h := C1_init_coercion argsBad initEnvOk worldCache
  have h1 := h.1 (by decide)
  have h2 := h.2.1 (by decide)
  exact ⟨(h1.1 engine0 (by decide)).1, (h1.1 engine0 (by decide)).2,
    h2.1 engine0 (by decide), h1.2, h2.2⟩

/-- C9: the supplied audio format is lowercased before validation — when
its lowercase form is one of `{aac, mp3, ogg, wav}`, the constructor
keeps that lowercase form as the effective format (and file extension)
and logs no format warning. -/
theorem C9_lowercase_before_validation (args : InitArgs) (env : InitEnv) (w : World)
    (hf : pyLower args.audio_format ∈ allowedAudioFormats) :
    (∀ eng, (TTSEngine.init args env w).1 = Except.ok eng →
      eng.audio_format = pyLower args.audio_format ∧
      eng.file_extension = pyLower args.audio_format) ∧
    (∀ f, LogEvent.warnBadAudioFormat f ∈ (TTSEngine.init args env w).2.log →
      LogEvent.warnBadAudioFormat f ∈ w.log) := by
  by_cases hm : args.model ∈ allowedModels <;>
    by_cases hd : "cache" ∈ w.dirs <;>
    rcases hmk : env.mkdirFailure with _ | me <;>
    rcases hcl : env.clientFailure with _ | ce <;>
    simp [TTSEngine.init, hf, hm, hd, hmk, hcl]

/-- Witness for C9: the upper-case format `"WAV"` is accepted and its
effective form is `"wav"`, with no warning in the constructor's log. -/
theorem C9_witness :
    pyLower "WAV" ∈ allowedAudioFormats ∧
    engineWAV.audio_format = pyLower "WAV" ∧
    engineWAV.file_extension = pyLower "WAV" ∧
    (TTSEngine.init argsWAV initEnvOk worldCache).2.log = [LogEvent.infoClientInit] := by
  have h := C9_lowercase_before_validation argsWAV initEnvOk worldCache (by decide)
  exact ⟨by decide, (h.1 engineWAV (by decide)).1, (h.1 engineWAV (by decide)).2, by decide⟩

/-- Counterexample to C6: an exception raised by `os.makedirs` while
creating the missing cache directory — which is part of construction —
propagates to the caller, because that call sits outside the
constructor's `try`/`except`. -/
theorem C6_counterexample :
    (TTSEngine.init argsDefault envMkdirFail worldEmpty).1 = Except.error "EACCES" := by
  decide

/-- C6 (amended): every exception raised during construction of the
vendor client is caught — the constructor completes normally, logs a
critical error, and leaves the adapter disabled with its client `None`;
the only exception the constructor propagates is a failure of
`os.makedirs` while creating the missing cache directory. -/
theorem C6_client_failure_contained (args : InitArgs) (env : InitEnv) (w : World) :
    (("cache" ∈ w.dirs ∨ env.mkdirFailure = none) →
      exceptOk (TTSEngine.init args env w).1 = true) ∧
    (∀ e, env.clientFailure = some e →
      ∀ eng, (TTSEngine.init args env w).1 = Except.ok eng →
        eng.client = none ∧
        LogEvent.criticalClientInitFailed e ∈ (TTSEngine.init args env w).2.log) ∧
    (∀ x, (TTSEngine.init args env w).1 = Except.error x →
      "cache" ∉ w.dirs ∧ env.mkdirFailure = some x) := by
  by_cases hf : pyLower args.audio_format ∈ allowedAudioFormats <;>
    by_cases hm : args.model ∈ allowedModels <;>
    by_cases hd : "cache" ∈ w.dirs <;>
    rcases hmk : env.mkdirFailure with _ | me <;>
    rcases hcl : env.clientFailure with _ | ce <;>
    simp [TTSEngine.init, exceptOk, hf, hm, hd, hmk, hcl]

/-- Witness for C6 (amended): with the cache directory present and the
vendor client constructor raising `"boom"`, construction completes
normally, the client is `None`, and a critical error is logged. -/
theorem C6_witness :
    exceptOk (TTSEngine.init argsDefault envClientFail worldCache).1 = true ∧
    engineNoClient.client = none ∧
    LogEvent.criticalClientInitFailed "boom" ∈
      (TTSEngine.init argsDefault envClientFail worldCache).2.log := by
  have h := C6_client_failure_contained argsDefault envClientFail worldCache
  have h2 := h.2.1 "boom" rfl engineNoClient (by decide)
  exact ⟨h.1 (Or.inl (by decide)), h2.1, h2.2⟩

theorem fsGet_fsRemove (fs : List (String × List Nat)) (p : String) :
    fsGet (fsRemove fs p) p = none := by
  induction fs with
  | nil => rfl
  | cons hd tl ih =>
    obtain ⟨q, b⟩ := hd
    by_cases hq : q = p <;> simp [fsRemove, fsGet, hq, ih]

theorem fsGet_fsSet (fs : List (String × List Nat)) (p : String) (b : List Nat) :
    fsGet (fsSet fs p b) p = some b := by
  induction fs with
  | nil => simp [fsSet, fsGet]
  | cons hd tl ih =>
    obtain ⟨q, bb⟩ := hd
    by_cases hq : q = p <;> simp [fsSet, fsGet, hq, ih]

theorem fsExists_fsSet (fs : List (String × List Nat)) (p : String) (b : List Nat) :
    fsExists (fsSet fs p b) p = true := by
  induction fs with
  | nil => simp [fsSet, fsExists]
  | cons hd tl ih =>
    obtain ⟨q, bb⟩ := hd
    by_cases hq : q = p <;> simp [fsSet, fsExists, hq, ih]

theorem fsGet_eq_none_of_not_exists (fs : List (String × List Nat)) (p : String)
    (h : fsExists fs p = false) : fsGet fs p = none := by
  induction fs with
  | nil => rfl
  | cons hd tl ih =>
    obtain ⟨q, b⟩ := hd
    simp only [fsExists, Bool.or_eq_false_iff] at h
    simp [fsGet, h.1, ih h.2]
    intro hq
    simp [hq] at h

/-- C5: if any exception is raised during the vendor speech call, the
base64 decode, or the file write, `generate_audio` returns `None` after
logging a critical error; with a working `os.remove`, no file is left at
the target cache path on any failure; a file left at the target path
after a failure implies the removal itself failed and was logged (never
raised); and a non-`None` return happens only when the vendor call and
decode succeeded and the decoded audio was fully written to the target
path. -/
theorem C5_exception_handling (self : TTSEngine) (c : Client) (env : CallEnv) (w : World)
    (s : String) (stem : Option String)
    (hc : self.client = some c) (ht : ¬ pyStrip s = "") :
    (vendorCallFails self env (pyStrip s) = true →
      (self.generate_audio env w (PyValue.str s) stem).2.1 = none ∧
      ∃ e, LogEvent.criticalTTSError e ∈
        (self.generate_audio env w (PyValue.str s) stem).2.2.log) ∧
    ((self.generate_audio env w (PyValue.str s) stem).2.1 = none →
      env.removeFailure = none →
      fsGet (self.generate_audio env w (PyValue.str s) stem).2.2.fs
        (self.generate_cache_file_name stem self.file_extension) = none) ∧
    (∀ r b, (self.generate_audio env w (PyValue.str s) stem).2.1 = none →
      env.removeFailure = some r →
      fsGet (self.generate_audio env w (PyValue.str s) stem).2.2.fs
        (self.generate_cache_file_name stem self.file_extension) = some b →
      LogEvent.errorRemoveIncompleteFailed
        (self.generate_cache_file_name stem self.file_extension) r ∈
        (self.generate_audio env w (PyValue.str s) stem).2.2.log) ∧
    (∀ q, (self.generate_audio env w (PyValue.str s) stem).2.1 = some q →
      q = self.generate_cache_file_name stem self.file_extension ∧
      vendorCallFails self env (pyStrip s) = false ∧
      ∃ resp bytes, env.speech (speechRequest self (pyStrip s)) = Except.ok resp ∧
        env.b64decode resp.audio_data = Except.ok bytes ∧
        fsGet (self.generate_audio env w (PyValue.str s) stem).2.2.fs
          (self.generate_cache_file_name stem self.file_extension) = some bytes) := by
  rcases hsp : env.speech (speechRequest self (pyStrip s)) with e | resp
  · simp [TTSEngine.generate_audio, hc, ht, hsp, vendorCallFails, cleanupAfterError]
    rcases hrm : env.removeFailure with _ | r <;>
      rcases hex : fsExists w.fs (self.generate_cache_file_name stem self.file_extension) <;>
      simp [hrm, hex, fsGet_fsRemove, fsGet_eq_none_of_not_exists]
    intro r1 b h1 h2
    exact Or.inr h1.symm
  · rcases hdec : env.b64decode resp.audio_data with e | bytes
    · simp [TTSEngine.generate_audio, hc, ht, hsp, hdec, vendorCallFails, cleanupAfterError]
      rcases hrm : env.removeFailure with _ | r <;>
        rcases hex : fsExists w.fs (self.generate_cache_file_name stem self.file_extension) <;>
        simp [hrm, hex, fsGet_fsRemove, fsGet_eq_none_of_not_exists]
      intro r1 b h1 h2
      exact Or.inr h1.symm
    · rcases hwr : env.writeOutcome with _ | e | ⟨leftover, e⟩
      · simp [TTSEngine.generate_audio, hc, ht, hsp, hdec, hwr, vendorCallFails,
          cleanupAfterError, fsGet_fsSet]
        rcases hb : resp.billable_characters_count with _ | n <;> simp [hb, fsGet_fsSet]
      · simp [TTSEngine.generate_audio, hc, ht, hsp, hdec, hwr, vendorCallFails,
          cleanupAfterError]
        rcases hrm : env.removeFailure with _ | r <;>
          rcases hex : fsExists w.fs (self.generate_cache_file_name stem self.file_extension) <;>
          simp [hrm, hex, fsGet_fsRemove, fsGet_eq_none_of_not_exists]
        intro r1 b h1 h2
        exact Or.inr h1.symm
      · simp [TTSEngine.generate_audio, hc, ht, hsp, hdec, hwr, vendorCallFails,
          cleanupAfterError, fsExists_fsSet]
        rcases hrm : env.removeFailure with _ | r <;>
          simp [hrm, fsGet_fsRemove, fsGet_fsSet, fsGet_eq_none_of_not_exists]

/-- Witness for C5: with the cache directory present, a failing vendor
call on the text `"hi"` yields a `None` result and leaves no file at the
target cache path. -/
theorem C5_witness :
    vendorCallFails engine0 callEnvNetFail (pyStrip "hi") = true ∧
    (engine0.generate_audio callEnvNetFail worldCache (PyValue.str "hi") none).2.1 = none ∧
    fsGet (engine0.generate_audio callEnvNetFail worldCache (PyValue.str "hi") none).2.2.fs
      (engine0.generate_cache_file_name none engine0.file_extension) = none := by
  have h := C5_exception_handling engine0 { token := "k" } callEnvNetFail worldCache "hi" none
    rfl (by decide)
  have h1 := h.1 (by decide)
  exact ⟨by decide, h1.1, h.2.1 h1.1 rfl⟩

/-- C10: for every text with a nonempty strip, the single vendor speech
call carries the stripped text as its `input` (never the untrimmed
original when they differ), and a successful result is the write of the
audio decoded from that request's response. -/
theorem C10_trimmed_input (self : TTSEngine) (c : Client) (env : CallEnv) (w : World)
    (s : String) (stem : Option String)
    (hc : self.client = some c) (ht : ¬ pyStrip s = "") :
    (self.generate_audio env w (PyValue.str s) stem).2.2.calls =
      w.calls ++ [speechRequest self (pyStrip s)] ∧
    (speechRequest self (pyStrip s)).input = pyStrip s ∧
    (¬ pyStrip s = s → ¬ (speechRequest self (pyStrip s)).input = s) ∧
    (∀ q, (self.generate_audio env w (PyValue.str s) stem).2.1 = some q →
      ∃ resp bytes, env.speech (speechRequest self (pyStrip s)) = Except.ok resp ∧
        env.b64decode resp.audio_data = Except.ok bytes ∧
        fsGet (self.generate_audio env w (PyValue.str s) stem).2.2.fs q = some bytes) := by
  refine ⟨?_, rfl, fun h => h, ?_⟩
  · rcases hsp : env.speech (speechRequest self (pyStrip s)) with e | resp
    · simp [TTSEngine.generate_audio, hc, ht, hsp, cleanupAfterError]
      rcases hrm : env.removeFailure with _ | r <;>
        rcases hex : fsExists w.fs (self.generate_cache_file_name stem self.file_extension) <;>
        simp [hrm, hex]
    · rcases hdec : env.b64decode resp.audio_data with e | bytes
      · simp [TTSEngine.generate_audio, hc, ht, hsp, hdec, cleanupAfterError]
        rcases hrm : env.removeFailure with _ | r <;>
          rcases hex : fsExists w.fs (self.generate_cache_file_name stem self.file_extension) <;>
          simp [hrm, hex]
      · rcases hwr : env.writeOutcome with _ | e | ⟨leftover, e⟩
        · simp [TTSEngine.generate_audio, hc, ht, hsp, hdec, hwr]
          rcases hb : resp.billable_characters_count with _ | n <;> simp [hb]
        · simp [TTSEngine.generate_audio, hc, ht, hsp, hdec, hwr, cleanupAfterError]
          rcases hrm : env.removeFailure with _ | r <;>
            rcases hex : fsExists w.fs (self.generate_cache_file_name stem self.file_extension) <;>
            simp [hrm, hex]
        · simp [TTSEngine.generate_audio, hc, ht, hsp, hdec, hwr, cleanupAfterError,
            fsExists_fsSet]
          rcases hrm : env.removeFailure with _ | r <;> simp [hrm]
  · intro q hq
    rcases hsp : env.speech (speechRequest self (pyStrip s)) with e | resp
    · simp [TTSEngine.generate_audio, hc, ht, hsp, cleanupAfterError] at hq
    · rcases hdec : env.b64decode resp.audio_data with e | bytes
      · simp [TTSEngine.generate_audio, hc, ht, hsp, hdec, cleanupAfterError] at hq
      · rcases hwr : env.writeOutcome with _ | e | ⟨leftover, e⟩
        · refine ⟨resp, bytes, rfl, hdec, ?_⟩
          have hq2 : q = self.generate_cache_file_name stem self.file_extension := by
            simp [TTSEngine.generate_audio, hc, ht, hsp, hdec, hwr] at hq
            exact hq.symm
          subst hq2
          simp [TTSEngine.generate_audio, hc, ht, hsp, hdec, hwr]
          rcases hb : resp.billable_characters_count with _ | n <;> simp [hb, fsGet_fsSet]
        · simp [TTSEngine.generate_audio, hc, ht, hsp, hdec, hwr, cleanupAfterError] at hq
        · simp [TTSEngine.generate_audio, hc, ht, hsp, hdec, hwr, cleanupAfterError] at hq

/-- Witness for C10: on the text `"  hello  "` the issued vendor call
carries the stripped input `"hello"`. -/
theorem C10_witness :
    (engine0.generate_audio callEnvOk worldCache
        (PyValue.str "  hello  ") (some "x")).2.2.calls =
      worldCache.calls ++ [speechRequest engine0 (pyStrip "  hello  ")] ∧
    (speechRequest engine0 (pyStrip "  hello  ")).input = pyStrip "  hello  " ∧
    pyStrip "  hello  " = "hello" := by
  have h := C10_trimmed_input engine0 { token := "k" } callEnvOk worldCache "  hello  "
    (some "x") rfl (by decide)
  exact ⟨h.1, h.2.1, by decide⟩

/-- C7 (modelled from the spec, as `generate_cache_file_name` is
inherited from the host's `TTSInterface` whose source is outside this
repository): the target cache path is `cache/<stem>.<format>` for an
explicit stem and `cache/temp.<format>` otherwise, and every successful
`generate_audio` call returns exactly that path for its stem and the
adapter's file extension. -/
theorem C7_cache_path (eng : TTSEngine) (hdir : eng.new_audio_dir = "cache") :
    (∀ s f, eng.generate_cache_file_name (some s) f = "cache/" ++ s ++ "." ++ f) ∧
    (∀ f, eng.generate_cache_file_name none f = "cache/temp." ++ f) ∧
    (∀ (env : CallEnv) (w : World) (text : PyValue) (stem : Option String) (q : String),
      (eng.generate_audio env w text stem).2.1 = some q →
      q = eng.generate_cache_file_name stem eng.file_extension) := by
  refine ⟨fun s f => by simp [TTSEngine.generate_cache_file_name, hdir],
    fun f => by simp [TTSEngine.generate_cache_file_name, hdir], ?_⟩
  intro env w text stem q hq
  cases hc : eng.client with
  | none => simp [TTSEngine.generate_audio, hc] at hq
  | some c =>
    cases text with
    | str s =>
      by_cases hs : pyStrip s = ""
      · simp [TTSEngine.generate_audio, hc, hs] at hq
      · rcases hsp : env.speech (speechRequest eng (pyStrip s)) with e | resp
        · simp [TTSEngine.generate_audio, hc, hs, hsp, cleanupAfterError] at hq
        · rcases hdec : env.b64decode resp.audio_data with e | bytes
          · simp [TTSEngine.generate_audio, hc, hs, hsp, hdec, cleanupAfterError] at hq
          · rcases hwr : env.writeOutcome with _ | e | ⟨leftover, e⟩
            · simp [TTSEngine.generate_audio, hc, hs, hsp, hdec, hwr] at hq
              exact hq.symm
            · simp [TTSEngine.generate_audio, hc, hs, hsp, hdec, hwr,
                cleanupAfterError] at hq
            · simp [TTSEngine.generate_audio, hc, hs, hsp, hdec, hwr,
                cleanupAfterError] at hq
    | int n => simp [TTSEngine.generate_audio, hc] at hq
    | pyNone => simp [TTSEngine.generate_audio, hc] at hq

/-- Witness for C7: stem `"x"` with format `"wav"` yields
`cache/x.wav`; no stem with format `"mp3"` yields `cache/temp.mp3`;
both paths end with the claimed suffixes and live inside the cache
directory. -/
theorem C7_witness :
    engineWAV.generate_cache_file_name (some "x") "wav" = "cache/" ++ "x" ++ "." ++ "wav" ∧
    engine0.generate_cache_file_name none "mp3" = "cache/temp." ++ "mp3" ∧
    strEndsWith ("cache/" ++ "x" ++ "." ++ "wav") "x.wav" = true ∧
    strEndsWith ("cache/temp." ++ "mp3") "temp.mp3" = true := by
  have h1 := C7_cache_path engineWAV rfl
  have h2 := C7_cache_path engine0 rfl
  exact ⟨h1.1 "x" "wav", h2.2.1 "mp3", by decide, by decide⟩

end Speechify
